import Mathlib

/-!
Shallow embedding of the nalej infrastructure-manager core: the request
validators of `internal/pkg/entities/validator.go` and the cluster-lifecycle
orchestration workflows of the `infrastructure` Manager (updateClusterState,
UpdateCluster, the provision/install/scale/uninstall monitor callbacks,
canUninstallCluster, clusterHasApps and Uninstall).

Remote collaborators (registry service, installer, provisioner, event bus,
application inventory) are modelled by explicit environment records giving the
outcome of each remote call, and each workflow returns, next to its result, the
trace of mutating remote calls it performed, in order.
-/

namespace InfraManager

/- ===================== gRPC enumerations ===================== -/

/-- Target platform of an operation, mirroring grpc_installer_go.Platform. -/
inductive Platform
  | MINIKUBE
  | AZURE
  | BAREMETAL
deriving DecidableEq

/-- Lifecycle state of a cluster, mirroring grpc_infrastructure_go.ClusterState. -/
inductive ClusterState
  | UNKNOWN
  | PROVISIONING
  | PROVISIONED
  | INSTALL_IN_PROGRESS
  | INSTALLED
  | SCALING
  | UNINSTALLING
  | DECOMMISSIONING
  | FAILURE
deriving DecidableEq

/-- Connectivity status of a cluster, mirroring grpc_connectivity_manager_go.ClusterStatus. -/
inductive ClusterStatus
  | UNKNOWN_STATUS
  | OFFLINE
  | ONLINE
  | OFFLINE_CORDON
  | ONLINE_CORDON
deriving DecidableEq

/-- Progress of a provisioner operation, mirroring grpc_provisioner_go.ProvisionProgress. -/
inductive ProvisionProgress
  | INIT
  | REGISTERED
  | IN_PROGRESS
  | ERROR
  | FINISHED
deriving DecidableEq

/-- Status of an installer operation, mirroring grpc_common_go.OpStatus. -/
inductive OpStatus
  | INIT
  | SCHEDULED
  | INPROGRESS
  | SUCCESS
  | FAILED
  | CANCELED
deriving DecidableEq

/-- Cluster type, mirroring grpc_infrastructure_go.ClusterType. -/
inductive ClusterType
  | KUBERNETES
  | DOCKER_NODE
deriving DecidableEq

/-- Status of a node, mirroring grpc_infrastructure_go.NodeStatus. -/
inductive NodeStatus
  | UNKNOWN_NODE_STATUS
  | INSTALLING
  | RUNNING
  | ERROR
deriving DecidableEq

/-- Lifecycle state of a node, mirroring grpc_infrastructure_go.NodeState. -/
inductive NodeState
  | UNREGISTERED
  | UNASSIGNED
  | ASSIGNED
deriving DecidableEq

/- ===================== errors (derrors) ===================== -/

/-- Category of a derrors.Error as used by this repository. -/
inductive DerrorType
  | InvalidArgument
  | FailedPrecondition
  | Unimplemented
  | Internal
  | GenericGRPC
deriving DecidableEq

/-- A derrors.Error: its category together with its message. -/
structure Derror where
  dtype : DerrorType
  msg : String
deriving DecidableEq

/-- Mirrors derrors.NewInvalidArgumentError. -/
def NewInvalidArgumentError (m : String) : Derror :=
  ⟨DerrorType.InvalidArgument, m⟩

/-- Mirrors derrors.NewFailedPreconditionError. -/
def NewFailedPreconditionError (m : String) : Derror :=
  ⟨DerrorType.FailedPrecondition, m⟩

/-- Mirrors derrors.NewInternalError. -/
def NewInternalError (m : String) : Derror :=
  ⟨DerrorType.Internal, m⟩

/- ===================== request/response messages ===================== -/

/-- Azure credential payload; ValidProvisionClusterRequest only checks presence. -/
structure AzureCredentials where
  clientId : String := ""
  clientSecret : String := ""
deriving DecidableEq

/-- Azure provisioning options; scale/decommission validation reads resourceGroup. -/
structure AzureOptions where
  resourceGroup : String := ""
  dnsZoneName : String := ""
deriving DecidableEq

/-- Mirrors grpc_installer_go.InstallRequest (the fields read by this repository). -/
structure InstallRequest where
  requestId : String := ""
  organizationId : String := ""
  clusterId : String := ""
  clusterType : ClusterType := ClusterType.KUBERNETES
  installBaseSystem : Bool := false
  kubeConfigRaw : String := ""
  hostname : String := ""
  username : String := ""
  privateKey : String := ""
  nodes : List String := []
  targetPlatform : Platform := Platform.MINIKUBE
  staticIpAddresses : List String := []
deriving DecidableEq

/-- Mirrors grpc_provisioner_go.ProvisionClusterRequest (the fields read here). -/
structure ProvisionClusterRequest where
  requestId : String := ""
  organizationId : String := ""
  clusterId : String := ""
  clusterName : String := ""
  isManagementCluster : Bool := false
  numNodes : Int := 0
  nodeType : String := ""
  targetPlatform : Platform := Platform.MINIKUBE
  azureCredentials : Option AzureCredentials := none
  azureOptions : Option AzureOptions := none
  kubernetesVersion : String := ""
deriving DecidableEq

/-- Mirrors grpc_provisioner_go.ScaleClusterRequest (the fields read here). -/
structure ScaleClusterRequest where
  requestId : String := ""
  organizationId : String := ""
  clusterId : String := ""
  isManagementCluster : Bool := false
  numNodes : Int := 0
  targetPlatform : Platform := Platform.MINIKUBE
  azureCredentials : Option AzureCredentials := none
  azureOptions : Option AzureOptions := none
deriving DecidableEq

/-- Mirrors grpc_installer_go.UninstallClusterRequest (the fields read here). -/
structure UninstallClusterRequest where
  requestId : String := ""
  organizationId : String := ""
  clusterId : String := ""
  clusterType : ClusterType := ClusterType.KUBERNETES
  kubeConfigRaw : String := ""
  targetPlatform : Platform := Platform.MINIKUBE
deriving DecidableEq

/-- Mirrors grpc_provisioner_go.DecommissionClusterRequest (the fields read here). -/
structure DecommissionClusterRequest where
  requestId : String := ""
  organizationId : String := ""
  clusterId : String := ""
  clusterType : ClusterType := ClusterType.KUBERNETES
  isManagementCluster : Bool := false
  targetPlatform : Platform := Platform.MINIKUBE
  azureCredentials : Option AzureCredentials := none
  azureOptions : Option AzureOptions := none
deriving DecidableEq

/-- Mirrors grpc_infrastructure_go.UpdateClusterRequest (the fields read here).
Labels, a Go string map, are embedded as an association list. -/
structure UpdateClusterRequest where
  organizationId : String := ""
  clusterId : String := ""
  addLabels : Bool := false
  removeLabels : Bool := false
  labels : List (String × String) := []
  updateClusterState : Bool := false
  state : ClusterState := ClusterState.UNKNOWN
  updateHostname : Bool := false
  hostname : String := ""
  updateControlPlaneHostname : Bool := false
  controlPlaneHostname : String := ""
deriving DecidableEq

/-- Mirrors grpc_infrastructure_go.UpdateNodeRequest (the fields read here). -/
structure UpdateNodeRequest where
  organizationId : String := ""
  nodeId : String := ""
  addLabels : Bool := false
  removeLabels : Bool := false
  labels : List (String × String) := []
  updateStatus : Bool := false
  status : NodeStatus := NodeStatus.UNKNOWN_NODE_STATUS
  updateState : Bool := false
  state : NodeState := NodeState.UNREGISTERED
deriving DecidableEq

/-- Mirrors grpc_infrastructure_go.RemoveNodesRequest (the fields read here). -/
structure RemoveNodesRequest where
  requestId : String := ""
  organizationId : String := ""
  nodes : List String := []
deriving DecidableEq

/-- Mirrors grpc_provisioner_go.ProvisionClusterResponse (the fields read here). -/
structure ProvisionClusterResponse where
  requestId : String := ""
  state : ProvisionProgress := ProvisionProgress.INIT
  error : String := ""
  rawKubeConfig : String := ""
  hostname : String := ""
  staticIpAddresses : List String := []
deriving DecidableEq

/-- Mirrors grpc_provisioner_go.ScaleClusterResponse (the fields read here). -/
structure ScaleClusterResponse where
  requestId : String := ""
  state : ProvisionProgress := ProvisionProgress.INIT
  error : String := ""
deriving DecidableEq

/-- Mirrors grpc_common_go.OpResponse (the fields read here). -/
structure OpResponse where
  requestId : String := ""
  organizationId : String := ""
  status : OpStatus := OpStatus.INIT
  error : String := ""
deriving DecidableEq

/-- A node record held by the registry service (the fields read here). -/
structure Node where
  nodeId : String := ""
  status : NodeStatus := NodeStatus.UNKNOWN_NODE_STATUS
deriving DecidableEq

/-- A cluster record held by the registry service (the fields read here). -/
structure Cluster where
  organizationId : String := ""
  clusterId : String := ""
  name : String := ""
  state : ClusterState := ClusterState.UNKNOWN
  clusterStatus : ClusterStatus := ClusterStatus.UNKNOWN_STATUS
deriving DecidableEq

/-- A service instance of a deployed application (grpc_application_go), the
fields read by clusterHasApps. -/
structure ServiceInstance where
  organizationId : String := ""
  deployedOnClusterId : String := ""
deriving DecidableEq

/-- A service-group instance of a deployed application. -/
structure ServiceGroupInstance where
  serviceInstances : List ServiceInstance := []
deriving DecidableEq

/-- A deployed application instance. -/
structure AppInstance where
  groups : List ServiceGroupInstance := []
deriving DecidableEq

/-- A node as discovered on a live cluster (entities.Cluster.Nodes element). -/
structure NodeInfo where
  ip : String := ""
  labels : List (String × String) := []
deriving DecidableEq

/-- Mirrors entities.Cluster: the topology discovered on a live cluster. -/
structure EntCluster where
  name : String := ""
  hostname : String := ""
  controlPlaneHostname : String := ""
  kubernetesVersion : String := ""
  nodes : List NodeInfo := []
deriving DecidableEq

/-- Mirrors monitor.DecommissionCallback: the decommission chain token handed to
Uninstall, wrapping the original decommission request (its Callback field is the
Manager method that the monitor will invoke with that request). -/
structure DecommissionCallback where
  request : DecommissionClusterRequest
deriving DecidableEq

/- ===================== validator.go ===================== -/

/-- Message constant of validator.go. -/
def emptyRequestId : String := "request_id cannot be empty"

/-- Message constant of validator.go. -/
def emptyOrganizationId : String := "organization_id cannot be empty"

/-- Message constant of validator.go. -/
def emptyClusterId : String := "cluster_id cannot be empty"

/-- Message constant of validator.go. -/
def emptyNodeId : String := "node_id cannot be empty"

/-- Mirrors ValidInstallRequest of validator.go. The Go function threads an
authFound flag through two independent if blocks; since the username block
either errors out or establishes username-with-privateKey-and-nodes, the flag
linearizes into the else-if chain below, in source order. -/
def ValidInstallRequest (installRequest : InstallRequest) : Option Derror :=
  if installRequest.organizationId = "" then
    some (NewInvalidArgumentError emptyOrganizationId)
  else if installRequest.clusterId ≠ "" then
    some (NewInvalidArgumentError "cluster_id must be nil, and set by this component")
  else if installRequest.requestId ≠ "" then
    some (NewInvalidArgumentError "request_id must be nil, and set by this component")
  else if installRequest.username ≠ "" ∧ installRequest.privateKey = "" then
    some (NewInvalidArgumentError "expecting PrivateKey with Username")
  else if installRequest.username ≠ "" ∧ installRequest.nodes.length = 0 then
    some (NewInvalidArgumentError "expecting Nodes with Username")
  else if installRequest.kubeConfigRaw ≠ "" ∧ installRequest.username ≠ "" then
    some (NewInvalidArgumentError "expecting KubeConfigRaw without Username")
  else if installRequest.kubeConfigRaw ≠ "" ∧ installRequest.privateKey ≠ "" then
    some (NewInvalidArgumentError "expecting KubeConfigRaw without PrivateKey")
  else if installRequest.kubeConfigRaw ≠ "" ∧ installRequest.nodes.length > 0 then
    some (NewInvalidArgumentError "expecting KubeConfigRaw without Nodes")
  else if installRequest.username = "" ∧ installRequest.kubeConfigRaw = "" then
    some (NewInvalidArgumentError "expecting KubeConfigRaw or Username, PrivateKey and Nodes")
  else none

/-- Mirrors ValidProvisionClusterRequest of validator.go. -/
def ValidProvisionClusterRequest (request : ProvisionClusterRequest) : Option Derror :=
  if request.requestId = "" then
    some (NewInvalidArgumentError "request_id must be set")
  else if request.isManagementCluster then
    some (NewInvalidArgumentError "you can only provision and install application clusters")
  else if request.organizationId = "" then
    some (NewInvalidArgumentError "organization_id must be set")
  else if request.numNodes ≤ 0 then
    some (NewInvalidArgumentError "num_nodes must be positive")
  else if request.nodeType = "" then
    some (NewInvalidArgumentError "node_type must be set")
  else if request.targetPlatform = Platform.AZURE ∧ request.azureCredentials = none then
    some (NewInvalidArgumentError "azure_credentials must be set when type is Azure")
  else if request.targetPlatform = Platform.AZURE ∧ request.azureOptions = none then
    some (NewInvalidArgumentError "azure_options must be set when type is Azure")
  else none

/-- Tests whether the azure options of a scale/decommission request are absent
or carry an empty resource group (the second Azure check of those validators). -/
def azureOptionsMissingResourceGroup (opts : Option AzureOptions) : Prop :=
  opts = none ∨ ∃ o, opts = some o ∧ o.resourceGroup = ""

instance (opts : Option AzureOptions) : Decidable (azureOptionsMissingResourceGroup opts) := by
  unfold azureOptionsMissingResourceGroup
  cases opts with
  | none => exact isTrue (Or.inl rfl)
  | some o =>
    by_cases h : o.resourceGroup = ""
    · exact isTrue (Or.inr ⟨o, rfl, h⟩)
    · refine isFalse ?_
      rintro (hc | ⟨o2, ho2, hrg⟩)
      · exact Option.noConfusion hc
      · cases Option.some.injEq .. ▸ ho2
        exact h hrg

/-- Mirrors ValidScaleClusterRequest of validator.go. -/
def ValidScaleClusterRequest (request : ScaleClusterRequest) : Option Derror :=
  if request.requestId ≠ "" then
    some (NewInvalidArgumentError "request_id is set by infrastructure-manager")
  else if request.organizationId = "" then
    some (NewInvalidArgumentError emptyOrganizationId)
  else if request.clusterId = "" then
    some (NewInvalidArgumentError emptyClusterId)
  else if request.isManagementCluster then
    some (NewInvalidArgumentError "can only scale application clusters")
  else if request.targetPlatform = Platform.AZURE ∧ request.azureCredentials = none then
    some (NewInvalidArgumentError "azure_credentials cannot be empty")
  else if request.targetPlatform = Platform.AZURE ∧
      azureOptionsMissingResourceGroup request.azureOptions then
    some (NewInvalidArgumentError "azure_options.resource_group cannot be empty")
  else none

/-- Mirrors ValidUninstallClusterRequest of validator.go. -/
def ValidUninstallClusterRequest (request : UninstallClusterRequest) : Option Derror :=
  if request.requestId ≠ "" then
    some (NewInvalidArgumentError "request_id is set by infrastructure-manager")
  else if request.organizationId = "" then
    some (NewInvalidArgumentError emptyOrganizationId)
  else if request.clusterId = "" then
    some (NewInvalidArgumentError emptyClusterId)
  else if request.kubeConfigRaw = "" then
    some (NewInvalidArgumentError "kube_config_raw cannot be empty")
  else none

/-- Mirrors ValidDecommissionClusterRequest of validator.go. -/
def ValidDecommissionClusterRequest (request : DecommissionClusterRequest) : Option Derror :=
  if request.requestId ≠ "" then
    some (NewInvalidArgumentError "request_id is set by infrastructure-manager")
  else if request.organizationId = "" then
    some (NewInvalidArgumentError emptyOrganizationId)
  else if request.clusterId = "" then
    some (NewInvalidArgumentError emptyClusterId)
  else if request.isManagementCluster then
    some (NewInvalidArgumentError "can only decommission application clusters")
  else if request.targetPlatform = Platform.AZURE ∧ request.azureCredentials = none then
    some (NewInvalidArgumentError "azure_credentials cannot be empty")
  else if request.targetPlatform = Platform.AZURE ∧
      azureOptionsMissingResourceGroup request.azureOptions then
    some (NewInvalidArgumentError "azure_options.resource_group cannot be empty")
  else none

/-- Mirrors ValidRemoveNodesRequest of validator.go. -/
def ValidRemoveNodesRequest (removeNodesRequest : RemoveNodesRequest) : Option Derror :=
  if removeNodesRequest.requestId = "" then
    some (NewInvalidArgumentError emptyRequestId)
  else if removeNodesRequest.organizationId = "" then
    some (NewInvalidArgumentError emptyOrganizationId)
  else if removeNodesRequest.nodes.length = 0 then
    some (NewInvalidArgumentError "nodes must not be empty")
  else none

/-- Modelled from the Kubernetes apimachinery validation library (external to
this repository, used by ValidLabels): a valid label value is at most 63
characters, and is empty or consists of alphanumerics, dashes, underscores and
dots, beginning and ending with an alphanumeric character. -/
def isValidLabelValue (v : String) : Bool :=
  let cs := v.data
  decide (cs.length ≤ 63) &&
    (cs.isEmpty ||
      ((cs.headD 'a').isAlphanum && (cs.getLastD 'a').isAlphanum &&
        cs.all fun c => c.isAlphanum || c = '-' || c = '_' || c = '.'))

/-- Mirrors ValidLabels of validator.go: reports an invalid-argument error on
the first label value rejected by the Kubernetes label-value validation. The
concrete message text comes from the external library and is summarized here. -/
def ValidLabels (labels : List (String × String)) : Option Derror :=
  match labels.find? fun kv => !isValidLabelValue kv.2 with
  | some _ => some (NewInvalidArgumentError "invalid label value")
  | none => none

/-- Mirrors ValidUpdateClusterRequest of validator.go. -/
def ValidUpdateClusterRequest (request : UpdateClusterRequest) : Option Derror :=
  if request.organizationId = "" then
    some (NewInvalidArgumentError emptyOrganizationId)
  else if request.clusterId = "" then
    some (NewInvalidArgumentError emptyClusterId)
  else if request.addLabels then
    ValidLabels request.labels
  else none

/-- Mirrors ValidUpdateNodeRequest of validator.go (note: the error returned
for a non-empty node_id reuses the emptyNodeId message constant). -/
def ValidUpdateNodeRequest (request : UpdateNodeRequest) : Option Derror :=
  if request.organizationId = "" then
    some (NewInvalidArgumentError emptyOrganizationId)
  else if request.nodeId ≠ "" then
    some (NewInvalidArgumentError emptyNodeId)
  else if request.addLabels then
    ValidLabels request.labels
  else none

/- ===================== orchestrator effect traces ===================== -/

/-- A mutating remote call performed by an orchestrator workflow. Reads
(GetCluster, ListNodes, ListAppInstances, cluster discovery) are pure in this
embedding: their outcomes come from the environment records below and they are
not recorded in the trace. -/
inductive Action
  | registryUpdate (req : UpdateClusterRequest)
  | busSend (req : UpdateClusterRequest)
  | updateState (organizationId clusterId : String) (state : ClusterState)
  | updateCluster (req : UpdateClusterRequest)
  | addNode (requestId organizationId ip : String)
  | attachNode (requestId organizationId clusterId nodeId : String)
  | installCluster (req : InstallRequest)
  | uninstallRpc (req : UninstallClusterRequest)
  | nodeUpdate (req : UpdateNodeRequest)
  | decommission (req : DecommissionClusterRequest)
  | spawnUninstallMonitor (clusterId : String) (token : Option DecommissionCallback)
deriving DecidableEq

/-- True exactly on node-state updates (UpdateNode calls). -/
def Action.isNodeUpdate : Action → Bool
  | Action.nodeUpdate _ => true
  | _ => false

/-- True exactly on decommission triggers. -/
def Action.isDecommission : Action → Bool
  | Action.decommission _ => true
  | _ => false

/-- True exactly on install requests issued to the installer. -/
def Action.isInstall : Action → Bool
  | Action.installCluster _ => true
  | _ => false

/- ===================== updateClusterState / UpdateCluster ===================== -/

/-- Outcomes of the two remote calls made by updateClusterState: the registry
UpdateCluster write and the event-bus SendEvents publish (none means success). -/
structure UpdateStateEnv where
  registryErr : Option Derror
  busErr : Option Derror

/-- Mirrors Manager.updateClusterState: writes the new lifecycle state to the
registry service and, if that write succeeded, publishes the same update on the
event bus. A registry failure is returned; a bus failure is logged and also
returned to the caller. -/
def updateClusterState (env : UpdateStateEnv) (organizationID clusterID : String)
    (newState : ClusterState) : Option Derror × List Action :=
  let updateRequest : UpdateClusterRequest :=
    { organizationId := organizationID
      clusterId := clusterID
      updateClusterState := true
      state := newState }
  match env.registryErr with
  | some dErr => (some dErr, [Action.registryUpdate updateRequest])
  | none =>
    match env.busErr with
    | some errBus =>
      (some errBus, [Action.registryUpdate updateRequest, Action.busSend updateRequest])
    | none =>
      (none, [Action.registryUpdate updateRequest, Action.busSend updateRequest])

/-- Outcomes of the two remote calls made by Manager.UpdateCluster. -/
structure UpdateClusterEnv where
  registryResult : Except Derror Cluster
  busErr : Option Derror

/-- Mirrors Manager.UpdateCluster: applies the update at the registry and, if
that succeeded, publishes the request on the event bus; a bus failure is logged
and returned as the result, discarding the successful registry update result. -/
def UpdateCluster (env : UpdateClusterEnv) (request : UpdateClusterRequest) :
    Except Derror Cluster × List Action :=
  match env.registryResult with
  | Except.error updateErr => (Except.error updateErr, [Action.registryUpdate request])
  | Except.ok updateResult =>
    match env.busErr with
    | some errBus =>
      (Except.error errBus, [Action.registryUpdate request, Action.busSend request])
    | none =>
      (Except.ok updateResult, [Action.registryUpdate request, Action.busSend request])

/- ===================== node attachment ===================== -/

/-- Outcomes of the AddNode and AttachNode registry calls, keyed by node IP and
by assigned node id respectively; AddNode returns the assigned node id. -/
structure AttachEnv where
  addNodeResult : String → Except Derror String
  attachNodeResult : String → Option Derror

/-- Mirrors Manager.attachNodes: for each discovered node, register it with
AddNode and attach it to the cluster with AttachNode; the first failing step
aborts the remaining nodes (already attached nodes are not rolled back). -/
def attachNodes (env : AttachEnv) (requestID organizationID clusterID : String) :
    List NodeInfo → Option Derror × List Action
  | [] => (none, [])
  | n :: rest =>
    let addAct := Action.addNode requestID organizationID n.ip
    match env.addNodeResult n.ip with
    | Except.error e => (some e, [addAct])
    | Except.ok nodeId =>
      let attachAct := Action.attachNode requestID organizationID clusterID nodeId
      match env.attachNodeResult nodeId with
      | some e => (some e, [addAct, attachAct])
      | none =>
        let restResult := attachNodes env requestID organizationID clusterID rest
        (restResult.1, addAct :: attachAct :: restResult.2)

/- ===================== provision callback ===================== -/

/-- Outcomes of the remote calls made inside provisionCallback. The outcome of
the hostname UpdateCluster call and of the chained InstallCluster call are only
logged by the source, so they do not appear here. -/
structure ProvisionCallbackEnv where
  updateStateResult : Option Derror
  discoverResult : Except Derror EntCluster
  attach : AttachEnv

/-- Mirrors Manager.provisionCallback: on a nil final response it returns at
once; otherwise it writes PROVISIONED (success) or FAILURE (watch error or
ERROR progress) through updateClusterState, stops on failure, and on success
discovers the cluster, updates its hostnames, attaches its nodes and issues the
chained install request (whose target platform is hardcoded to AZURE). -/
def provisionCallback (env : ProvisionCallbackEnv)
    (requestID organizationID clusterID : String)
    (lastResponse : Option ProvisionClusterResponse) (err : Option Derror) :
    List Action :=
  match lastResponse with
  | none => []
  | some resp =>
    let newState :=
      if err.isSome ∨ resp.state = ProvisionProgress.ERROR then ClusterState.FAILURE
      else ClusterState.PROVISIONED
    let upd := [Action.updateState organizationID clusterID newState]
    if env.updateStateResult.isSome then upd
    else if newState = ClusterState.FAILURE then upd
    else
      match env.discoverResult with
      | Except.error _ => upd
      | Except.ok discovered =>
        let clusterUpdate : UpdateClusterRequest :=
          { organizationId := organizationID
            clusterId := clusterID
            updateHostname := true
            hostname := resp.hostname
            updateControlPlaneHostname := true
            controlPlaneHostname := discovered.controlPlaneHostname }
        let attachActs :=
          (attachNodes env.attach requestID organizationID clusterID discovered.nodes).2
        let installRequest : InstallRequest :=
          { requestId := requestID
            organizationId := organizationID
            clusterId := clusterID
            clusterType := ClusterType.KUBERNETES
            installBaseSystem := false
            kubeConfigRaw := resp.rawKubeConfig
            hostname := resp.hostname
            targetPlatform := Platform.AZURE
            staticIpAddresses := resp.staticIpAddresses }
        upd ++ [Action.updateCluster clusterUpdate] ++ attachActs ++
          [Action.installCluster installRequest]

/- ===================== install callback ===================== -/

/-- Modelled from the spec: entities.OpStatusToNodeState is not among the
provided sources; per the spec a node's lifecycle state mirrors the last known
installer operation outcome, so a successful operation marks the node assigned
and any other outcome leaves it unassigned. -/
def OpStatusToNodeState (status : OpStatus) : NodeState :=
  match status with
  | OpStatus.SUCCESS => NodeState.ASSIGNED
  | _ => NodeState.UNASSIGNED

/-- Outcomes of the remote calls made inside installCallback. The outcome of
its updateClusterState call is only logged, so it does not appear here. -/
structure InstallCallbackEnv where
  listNodesResult : Except Derror (List Node)
  updateNodeResult : String → Option Derror

/-- The per-node UpdateNode loop of installCallback: pushes each node's status
and the state derived from the operation outcome; the first failing update
aborts the remaining nodes. -/
def updateNodesLoop (env : InstallCallbackEnv) (organizationID : String)
    (opStatus : OpStatus) : List Node → List Action
  | [] => []
  | n :: rest =>
    let updateNodeRequest : UpdateNodeRequest :=
      { organizationId := organizationID
        nodeId := n.nodeId
        updateStatus := true
        status := n.status
        updateState := true
        state := OpStatusToNodeState opStatus }
    match env.updateNodeResult n.nodeId with
    | some _ => [Action.nodeUpdate updateNodeRequest]
    | none => Action.nodeUpdate updateNodeRequest :: updateNodesLoop env organizationID opStatus rest

/-- Mirrors Manager.installCallback: on a nil final response it returns at
once; otherwise it writes INSTALLED (success) or FAILURE (watch error or FAILED
status), then lists the cluster's nodes and pushes each node's new
status/state. -/
def installCallback (env : InstallCallbackEnv)
    (requestID organizationID clusterID : String)
    (response : Option OpResponse) (err : Option Derror) : List Action :=
  match response with
  | none => []
  | some resp =>
    let newState :=
      if err.isSome ∨ resp.status = OpStatus.FAILED then ClusterState.FAILURE
      else ClusterState.INSTALLED
    let upd := [Action.updateState organizationID clusterID newState]
    match env.listNodesResult with
    | Except.error _ => upd
    | Except.ok nodes => upd ++ updateNodesLoop env organizationID resp.status nodes

/- ===================== scale / uninstall callbacks ===================== -/

/-- Mirrors Manager.scaleCallback: on a nil final response it returns at once;
otherwise it writes INSTALLED (success) or FAILURE (watch error or ERROR
progress); the outcome of that write is only logged. -/
def scaleCallback (requestID organizationID clusterID : String)
    (lastResponse : Option ScaleClusterResponse) (err : Option Derror) : List Action :=
  match lastResponse with
  | none => []
  | some resp =>
    let newState :=
      if err.isSome ∨ resp.state = ProvisionProgress.ERROR then ClusterState.FAILURE
      else ClusterState.INSTALLED
    [Action.updateState organizationID clusterID newState]

/-- Mirrors Manager.uninstallCallback: on a nil final response it returns at
once; otherwise it writes PROVISIONED (success) or FAILURE (watch error or
FAILED status); the outcome of that write is only logged. It performs no node
updates. -/
def uninstallCallback (requestID organizationID clusterID : String)
    (response : Option OpResponse) (err : Option Derror) : List Action :=
  match response with
  | none => []
  | some resp =>
    let newState :=
      if err.isSome ∨ resp.status = OpStatus.FAILED then ClusterState.FAILURE
      else ClusterState.PROVISIONED
    [Action.updateState organizationID clusterID newState]

/-- Modelled from the spec: the installer-operation monitor spawned by
Uninstall (package monitor, not among the provided sources) invokes its
registered callbacks in registration order on completion — first the uninstall
callback, then, only if a decommission chain token was supplied and the
uninstall completed successfully, the decommission trigger wrapping the
original decommission request. -/
def uninstallMonitorComplete (token : Option DecommissionCallback)
    (requestID organizationID clusterID : String)
    (response : Option OpResponse) (err : Option Derror) : List Action :=
  uninstallCallback requestID organizationID clusterID response err ++
    match token, response with
    | some cb, some resp =>
      if err.isNone ∧ resp.status ≠ OpStatus.FAILED then [Action.decommission cb.request]
      else []
    | _, _ => []

/- ===================== uninstall preconditions and Uninstall ===================== -/

/-- Mirrors Manager.clusterHasApps, given the application inventory's instance
list: true when some service instance of the organization is deployed on the
given cluster. -/
def clusterHasApps (instances : List AppInstance) (organizationID clusterID : String) : Bool :=
  instances.any fun inst =>
    inst.groups.any fun sg =>
      sg.serviceInstances.any fun s =>
        s.organizationId = organizationID ∧ s.deployedOnClusterId = clusterID

/-- Outcomes of the remote calls made by canUninstallCluster and Uninstall. -/
structure UninstallEnv where
  getClusterResult : Except Derror Cluster
  listInstancesResult : Except Derror (List AppInstance)
  updateStateResult : Option Derror
  uninstallRpcResult : Except Derror OpResponse

/-- Mirrors Manager.canUninstallCluster: retrieves the cluster, rejects with a
failed-precondition error when it has deployed applications, then when its
connectivity status is not ONLINE_CORDON. -/
def canUninstallCluster (env : UninstallEnv) (organizationID clusterID : String) :
    Option Derror :=
  match env.getClusterResult with
  | Except.error e => some e
  | Except.ok cluster =>
    match env.listInstancesResult with
    | Except.error e => some e
    | Except.ok instances =>
      if clusterHasApps instances organizationID clusterID then
        some (NewFailedPreconditionError "target cluster has deployed applications")
      else if cluster.clusterStatus ≠ ClusterStatus.ONLINE_CORDON then
        some (NewFailedPreconditionError "target cluster must be online and cordoned")
      else none

/-- Mirrors Manager.Uninstall: checks canUninstallCluster, transitions the
cluster to UNINSTALLING, issues the uninstall RPC (transitioning to FAILURE if
that RPC fails), and on acceptance hands the decommission chain token to the
spawned installer-operation monitor. -/
def Uninstall (env : UninstallEnv) (request : UninstallClusterRequest)
    (decommissionCallback : Option DecommissionCallback) :
    Except Derror OpResponse × List Action :=
  match canUninstallCluster env request.organizationId request.clusterId with
  | some canUninstallErr => (Except.error canUninstallErr, [])
  | none =>
    let s1 := [Action.updateState request.organizationId request.clusterId
      ClusterState.UNINSTALLING]
    match env.updateStateResult with
    | some e => (Except.error e, s1)
    | none =>
      match env.uninstallRpcResult with
      | Except.error uErr =>
        (Except.error uErr,
          s1 ++ [Action.uninstallRpc request,
            Action.updateState request.organizationId request.clusterId ClusterState.FAILURE])
      | Except.ok response =>
        (Except.ok response,
          s1 ++ [Action.uninstallRpc request,
            Action.spawnUninstallMonitor request.clusterId decommissionCallback])

/- ===================== concrete example data ===================== -/

/-- Example registry record: an online cluster that has not been cordoned. -/
def onlineCluster : Cluster :=
  { organizationId := "org-1", clusterId := "clu-1",
    state := ClusterState.INSTALLED, clusterStatus := ClusterStatus.ONLINE }

/-- Example registry record: an online, cordoned cluster whose lifecycle state
is FAILURE. -/
def cordonedFailedCluster : Cluster :=
  { organizationId := "org-1", clusterId := "clu-1",
    state := ClusterState.FAILURE, clusterStatus := ClusterStatus.ONLINE_CORDON }

/-- Example environment: the registry returns onlineCluster, the application
inventory is empty, and every later call succeeds. -/
def uninstallEnvOnline : UninstallEnv :=
  ⟨Except.ok onlineCluster, Except.ok [], none, Except.ok {}⟩

/-- Example environment: the registry returns cordonedFailedCluster, the
application inventory is empty, and every later call succeeds. -/
def uninstallEnvCordoned : UninstallEnv :=
  ⟨Except.ok cordonedFailedCluster, Except.ok [], none, Except.ok {}⟩

/-- Example uninstall request. -/
def uninstallReq1 : UninstallClusterRequest :=
  { organizationId := "org-1", clusterId := "clu-1", kubeConfigRaw := "kc" }

/- ===================== theorems: request-id policy (C3) ===================== -/

/-- C3 counterexample: a provision request arriving with a non-empty
caller-supplied request_id is not rejected — ValidProvisionClusterRequest
accepts it (the provision validator in fact requires the request id to be
set, the opposite of the claimed rejection). -/
theorem validProvision_accepts_caller_requestId :
    ValidProvisionClusterRequest
      { requestId := "caller-supplied-id", organizationId := "org-1",
        clusterName := "c1", numNodes := 3, nodeType := "std" } = none := by
  decide

/-- C3 (amended): validation of install, scale, uninstall and decommission
requests rejects any non-empty caller-supplied request_id with an
invalid-argument error; validation of provision requests instead requires a
non-empty request_id and rejects an empty one with an invalid-argument
error. -/
theorem requestId_validation_policy :
    (∀ r : InstallRequest, r.requestId ≠ "" →
      ∃ e, ValidInstallRequest r = some e ∧ e.dtype = DerrorType.InvalidArgument) ∧
    (∀ r : ScaleClusterRequest, r.requestId ≠ "" →
      ValidScaleClusterRequest r =
        some (NewInvalidArgumentError "request_id is set by infrastructure-manager")) ∧
    (∀ r : UninstallClusterRequest, r.requestId ≠ "" →
      ValidUninstallClusterRequest r =
        some (NewInvalidArgumentError "request_id is set by infrastructure-manager")) ∧
    (∀ r : DecommissionClusterRequest, r.requestId ≠ "" →
      ValidDecommissionClusterRequest r =
        some (NewInvalidArgumentError "request_id is set by infrastructure-manager")) ∧
    (∀ r : ProvisionClusterRequest, r.requestId = "" →
      ValidProvisionClusterRequest r =
        some (NewInvalidArgumentError "request_id must be set")) := by
  refine ⟨?_, ?_, ?_, ?_, ?_⟩
  · intro r h
    unfold ValidInstallRequest
    repeat' split
    all_goals first
      | exact ⟨_, rfl, rfl⟩
      | simp_all
  · intro r h
    unfold ValidScaleClusterRequest
    rw [if_pos h]
  · intro r h
    unfold ValidUninstallClusterRequest
    rw [if_pos h]
  · intro r h
    unfold ValidDecommissionClusterRequest
    rw [if_pos h]
  · intro r h
    unfold ValidProvisionClusterRequest
    rw [if_pos h]

/-- C3 witness: the amended request-id policy at concrete requests. -/
theorem requestId_validation_policy_witness :
    (∃ e, ValidInstallRequest { organizationId := "org-1", requestId := "caller-id" } =
        some e ∧ e.dtype = DerrorType.InvalidArgument) ∧
    ValidScaleClusterRequest { requestId := "caller-id" } =
      some (NewInvalidArgumentError "request_id is set by infrastructure-manager") ∧
    ValidUninstallClusterRequest { requestId := "caller-id" } =
      some (NewInvalidArgumentError "request_id is set by infrastructure-manager") ∧
    ValidDecommissionClusterRequest { requestId := "caller-id" } =
      some (NewInvalidArgumentError "request_id is set by infrastructure-manager") ∧
    ValidProvisionClusterRequest { requestId := "" } =
      some (NewInvalidArgumentError "request_id must be set") :=
  ⟨requestId_validation_policy.1 _ (by decide),
   requestId_validation_policy.2.1 _ (by decide),
   requestId_validation_policy.2.2.1 _ (by decide),
   requestId_validation_policy.2.2.2.1 _ (by decide),
   requestId_validation_policy.2.2.2.2 _ (by decide)⟩

/- ===================== theorems: Azure requirement (C6) ===================== -/

/-- C6 counterexample: an uninstall request targeting the Azure platform while
carrying no Azure credentials or options of any kind is accepted by
ValidUninstallClusterRequest, which never inspects the target platform. -/
theorem validUninstall_ignores_azure :
    ValidUninstallClusterRequest
      { organizationId := "org-1", clusterId := "clu-1", kubeConfigRaw := "kubeconfig",
        targetPlatform := Platform.AZURE } = none := by
  decide

/-- C6 (amended): provision, scale and decommission validation require the
Azure credentials and Azure options exactly when the target platform is Azure
(missing ones are rejected with an invalid-argument error, and for any other
platform the result does not depend on the Azure fields); uninstall validation
imposes no Azure requirement at all — its result is independent of the target
platform. -/
theorem azure_requirement_policy :
    (∀ r : ProvisionClusterRequest, r.targetPlatform = Platform.AZURE →
      r.azureCredentials = none ∨ r.azureOptions = none →
      ∃ e, ValidProvisionClusterRequest r = some e ∧
        e.dtype = DerrorType.InvalidArgument) ∧
    (∀ r : ScaleClusterRequest, r.targetPlatform = Platform.AZURE →
      r.azureCredentials = none ∨ r.azureOptions = none →
      ∃ e, ValidScaleClusterRequest r = some e ∧
        e.dtype = DerrorType.InvalidArgument) ∧
    (∀ r : DecommissionClusterRequest, r.targetPlatform = Platform.AZURE →
      r.azureCredentials = none ∨ r.azureOptions = none →
      ∃ e, ValidDecommissionClusterRequest r = some e ∧
        e.dtype = DerrorType.InvalidArgument) ∧
    (∀ r : ProvisionClusterRequest, r.targetPlatform ≠ Platform.AZURE →
      ValidProvisionClusterRequest r =
        ValidProvisionClusterRequest
          { r with azureCredentials := none, azureOptions := none }) ∧
    (∀ r : ScaleClusterRequest, r.targetPlatform ≠ Platform.AZURE →
      ValidScaleClusterRequest r =
        ValidScaleClusterRequest
          { r with azureCredentials := none, azureOptions := none }) ∧
    (∀ r : DecommissionClusterRequest, r.targetPlatform ≠ Platform.AZURE →
      ValidDecommissionClusterRequest r =
        ValidDecommissionClusterRequest
          { r with azureCredentials := none, azureOptions := none }) ∧
    (∀ (r : UninstallClusterRequest) (p : Platform),
      ValidUninstallClusterRequest { r with targetPlatform := p } =
        ValidUninstallClusterRequest r) := by
  refine ⟨?_, ?_, ?_, ?_, ?_, ?_, ?_⟩
  · intro r hp hmiss
    unfold ValidProvisionClusterRequest
    repeat' split
    all_goals first
      | exact ⟨_, rfl, rfl⟩
      | (rcases hmiss with h1 | h1 <;> simp_all)
  · intro r hp hmiss
    unfold ValidScaleClusterRequest
    repeat' split
    all_goals first
      | exact ⟨_, rfl, rfl⟩
      | (rcases hmiss with h1 | h1 <;>
          simp_all [azureOptionsMissingResourceGroup])
  · intro r hp hmiss
    unfold ValidDecommissionClusterRequest
    repeat' split
    all_goals first
      | exact ⟨_, rfl, rfl⟩
      | (rcases hmiss with h1 | h1 <;>
          simp_all [azureOptionsMissingResourceGroup])
  · intro r hp
    cases r
    simp_all [ValidProvisionClusterRequest]
  · intro r hp
    cases r
    simp_all [ValidScaleClusterRequest]
  · intro r hp
    cases r
    simp_all [ValidDecommissionClusterRequest]
  · intro r p
    cases r
    rfl

/-- C6 witness: the amended Azure policy at concrete requests. -/
theorem azure_requirement_policy_witness :
    (∃ e, ValidProvisionClusterRequest
        { requestId := "r1", organizationId := "org-1", numNodes := 3,
          nodeType := "std", targetPlatform := Platform.AZURE } = some e ∧
      e.dtype = DerrorType.InvalidArgument) ∧
    (∃ e, ValidScaleClusterRequest
        { organizationId := "org-1", clusterId := "clu-1",
          targetPlatform := Platform.AZURE } = some e ∧
      e.dtype = DerrorType.InvalidArgument) ∧
    (∃ e, ValidDecommissionClusterRequest
        { organizationId := "org-1", clusterId := "clu-1",
          targetPlatform := Platform.AZURE } = some e ∧
      e.dtype = DerrorType.InvalidArgument) ∧
    ValidProvisionClusterRequest
      { requestId := "r1", organizationId := "org-1", numNodes := 3,
        nodeType := "std", targetPlatform := Platform.MINIKUBE,
        azureCredentials := some { clientId := "id" } } =
      ValidProvisionClusterRequest
        { requestId := "r1", organizationId := "org-1", numNodes := 3,
          nodeType := "std", targetPlatform := Platform.MINIKUBE } ∧
    ValidUninstallClusterRequest
      { organizationId := "org-1", clusterId := "clu-1", kubeConfigRaw := "kc",
        targetPlatform := Platform.BAREMETAL } =
      ValidUninstallClusterRequest
        { organizationId := "org-1", clusterId := "clu-1", kubeConfigRaw := "kc" } :=
  ⟨azure_requirement_policy.1 _ rfl (Or.inl rfl),
   azure_requirement_policy.2.1 _ rfl (Or.inl rfl),
   azure_requirement_policy.2.2.1 _ rfl (Or.inl rfl),
   azure_requirement_policy.2.2.2.1 _ (by decide),
   azure_requirement_policy.2.2.2.2.2.2
     { organizationId := "org-1", clusterId := "clu-1", kubeConfigRaw := "kc" }
     Platform.BAREMETAL⟩

/- ===================== theorems: install credential forms (C7) ===================== -/

set_option maxHeartbeats 1600000 in
/-- C7: ValidInstallRequest accepts only when exactly one credential form is
supplied — kubeConfigRaw alone (username, privateKey and nodes all absent), or
username with a privateKey and at least one node (and no kubeConfigRaw);
supplying both forms, or neither, is rejected with an invalid-argument error,
as is a username without a privateKey or without nodes. -/
theorem validInstallRequest_credential_forms :
    ∀ r : InstallRequest,
      (ValidInstallRequest r = none →
        (r.kubeConfigRaw ≠ "" ∧ r.username = "" ∧ r.privateKey = "" ∧ r.nodes = []) ∨
        (r.username ≠ "" ∧ r.privateKey ≠ "" ∧ r.nodes ≠ [] ∧ r.kubeConfigRaw = "")) ∧
      (r.username ≠ "" → r.kubeConfigRaw ≠ "" →
        ∃ e, ValidInstallRequest r = some e ∧ e.dtype = DerrorType.InvalidArgument) ∧
      (r.username = "" → r.kubeConfigRaw = "" →
        ∃ e, ValidInstallRequest r = some e ∧ e.dtype = DerrorType.InvalidArgument) ∧
      (r.username ≠ "" → r.privateKey = "" ∨ r.nodes = [] →
        ∃ e, ValidInstallRequest r = some e ∧ e.dtype = DerrorType.InvalidArgument) := by
  intro r
  refine ⟨?_, ?_, ?_, ?_⟩
  · intro h
    unfold ValidInstallRequest at h
    repeat' split at h
    all_goals simp_all [List.length_eq_zero]
    tauto
  · intro hu hk
    unfold ValidInstallRequest
    repeat' split
    all_goals first
      | exact ⟨_, rfl, rfl⟩
      | simp_all
  · intro hu hk
    unfold ValidInstallRequest
    repeat' split
    all_goals first
      | exact ⟨_, rfl, rfl⟩
      | simp_all
  · intro hu hmiss
    unfold ValidInstallRequest
    repeat' split
    all_goals first
      | exact ⟨_, rfl, rfl⟩
      | (rcases hmiss with h1 | h1 <;> simp_all [List.length_eq_zero])

/-- C7 witness: the credential-form policy at concrete install requests. -/
theorem validInstallRequest_credential_forms_witness :
    ((ValidInstallRequest { organizationId := "org-1", kubeConfigRaw := "kc" } = none →
      (("kc" : String) ≠ "" ∧ ("" : String) = "" ∧ ("" : String) = "" ∧
        ([] : List String) = []) ∨
      (("" : String) ≠ "" ∧ ("" : String) ≠ "" ∧ ([] : List String) ≠ [] ∧
        ("kc" : String) = ""))) ∧
    (∃ e, ValidInstallRequest
        { organizationId := "org-1", username := "u", privateKey := "pk",
          nodes := ["10.0.0.1"], kubeConfigRaw := "kc" } = some e ∧
      e.dtype = DerrorType.InvalidArgument) ∧
    (∃ e, ValidInstallRequest { organizationId := "org-1" } = some e ∧
      e.dtype = DerrorType.InvalidArgument) ∧
    (∃ e, ValidInstallRequest { organizationId := "org-1", username := "u" } = some e ∧
      e.dtype = DerrorType.InvalidArgument) :=
  ⟨(validInstallRequest_credential_forms _).1,
   (validInstallRequest_credential_forms _).2.1 (by decide) (by decide),
   (validInstallRequest_credential_forms _).2.2.1 rfl rfl,
   (validInstallRequest_credential_forms _).2.2.2 (by decide) (Or.inl rfl)⟩

/- ===================== theorems: update-node validation (C10) ===================== -/

/-- C10 counterexample: a request with a non-empty node_id whose organization
id is also empty is rejected with the organization message, not with the
claimed node-id message. -/
theorem validUpdateNode_org_error_precedence :
    ValidUpdateNodeRequest { organizationId := "", nodeId := "node-1" } =
      some (NewInvalidArgumentError emptyOrganizationId) ∧
    ValidUpdateNodeRequest { organizationId := "", nodeId := "node-1" } ≠
      some (NewInvalidArgumentError emptyNodeId) := by
  refine ⟨rfl, ?_⟩
  decide

/-- C10 (amended): ValidUpdateNodeRequest rejects any request with a non-empty
node_id with an invalid-argument error — whose message says the node id cannot
be empty whenever the organization id is set (an empty organization id is
reported first) — and accepts a request with an empty node_id provided the
organization id is set and any labels supplied under add-labels are valid. -/
theorem validUpdateNodeRequest_behavior :
    ∀ r : UpdateNodeRequest,
      (r.nodeId ≠ "" →
        ∃ e, ValidUpdateNodeRequest r = some e ∧ e.dtype = DerrorType.InvalidArgument) ∧
      (r.organizationId ≠ "" → r.nodeId ≠ "" →
        ValidUpdateNodeRequest r = some (NewInvalidArgumentError emptyNodeId)) ∧
      (r.organizationId ≠ "" → r.nodeId = "" →
        (r.addLabels = true → ValidLabels r.labels = none) →
        ValidUpdateNodeRequest r = none) := by
  intro r
  refine ⟨?_, ?_, ?_⟩
  · intro h
    unfold ValidUpdateNodeRequest
    repeat' split
    all_goals first
      | exact ⟨_, rfl, rfl⟩
      | simp_all
  · intro horg h
    unfold ValidUpdateNodeRequest
    rw [if_neg horg, if_pos h]
  · intro horg h hlab
    unfold ValidUpdateNodeRequest
    rw [if_neg horg, if_neg (by simp [h])]
    by_cases ha : r.addLabels
    · rw [if_pos ha]
      exact hlab ha
    · rw [if_neg ha]

/-- C10 witness: the amended update-node behavior at concrete requests. -/
theorem validUpdateNodeRequest_behavior_witness :
    (∃ e, ValidUpdateNodeRequest { organizationId := "", nodeId := "node-1" } = some e ∧
      e.dtype = DerrorType.InvalidArgument) ∧
    ValidUpdateNodeRequest { organizationId := "org-1", nodeId := "node-1" } =
      some (NewInvalidArgumentError emptyNodeId) ∧
    ValidUpdateNodeRequest
      { organizationId := "org-1", addLabels := true, labels := [("k", "v1")] } = none :=
  ⟨(validUpdateNodeRequest_behavior _).1 (by decide),
   (validUpdateNodeRequest_behavior _).2.1 (by decide) (by decide),
   (validUpdateNodeRequest_behavior _).2.2 (by decide) rfl (fun _ => by decide)⟩

/- ===================== theorems: bus-publish failure (C1) ===================== -/

/-- C1 counterexample: when the registry write succeeds but the event-bus
publish fails, updateClusterState does not return success to its caller — it
returns the bus error, even though the registry write (the first trace action)
went through. -/
theorem updateClusterState_busFailure_not_success :
    (updateClusterState ⟨none, some (NewInternalError "bus unavailable")⟩
        "org-1" "clu-1" ClusterState.INSTALLED).1 ≠ none ∧
    (updateClusterState ⟨none, some (NewInternalError "bus unavailable")⟩
        "org-1" "clu-1" ClusterState.INSTALLED).2 =
      [Action.registryUpdate
        { organizationId := "org-1", clusterId := "clu-1",
          updateClusterState := true, state := ClusterState.INSTALLED },
       Action.busSend
        { organizationId := "org-1", clusterId := "clu-1",
          updateClusterState := true, state := ClusterState.INSTALLED }] := by
  exact ⟨by decide, rfl⟩

/-- C1 (amended): on both lifecycle-transition paths (updateClusterState and
the generic UpdateCluster), if the registry write succeeds but the subsequent
event-bus publish fails, the publish failure is logged and the bus error is
returned to the caller — the operation reports failure, while the registry
write stands (it is performed and not undone). -/
theorem updateClusterState_busFailure_returns_error :
    (∀ (env : UpdateStateEnv) (o c : String) (s : ClusterState) (e : Derror),
      env.registryErr = none → env.busErr = some e →
      (updateClusterState env o c s).1 = some e ∧
      (updateClusterState env o c s).2 =
        [Action.registryUpdate
          { organizationId := o, clusterId := c, updateClusterState := true, state := s },
         Action.busSend
          { organizationId := o, clusterId := c, updateClusterState := true, state := s }]) ∧
    (∀ (env : UpdateClusterEnv) (req : UpdateClusterRequest) (cl : Cluster) (e : Derror),
      env.registryResult = Except.ok cl → env.busErr = some e →
      (UpdateCluster env req).1 = Except.error e ∧
      (UpdateCluster env req).2 = [Action.registryUpdate req, Action.busSend req]) := by
  constructor
  · intro env o c s e hr hb
    simp [updateClusterState, hr, hb]
  · intro env req cl e hr hb
    simp [UpdateCluster, hr, hb]

/-- C1 witness: the amended bus-failure behavior at a concrete environment. -/
theorem updateClusterState_busFailure_returns_error_witness :
    ((updateClusterState ⟨none, some (NewInternalError "nats down")⟩
        "org-2" "clu-2" ClusterState.PROVISIONED).1 =
      some (NewInternalError "nats down")) ∧
    ((UpdateCluster ⟨Except.ok { clusterId := "clu-2" },
        some (NewInternalError "nats down")⟩ { clusterId := "clu-2" }).1 =
      Except.error (NewInternalError "nats down")) :=
  ⟨(updateClusterState_busFailure_returns_error.1
      ⟨none, some (NewInternalError "nats down")⟩
      "org-2" "clu-2" ClusterState.PROVISIONED (NewInternalError "nats down") rfl rfl).1,
   (updateClusterState_busFailure_returns_error.2
      ⟨Except.ok { clusterId := "clu-2" }, some (NewInternalError "nats down")⟩
      { clusterId := "clu-2" } { clusterId := "clu-2" } (NewInternalError "nats down")
      rfl rfl).1⟩

/- ===================== theorems: nil-response callbacks (C9) ===================== -/

/-- C9: every completion callback (provision, install, scale, uninstall)
invoked with a nil final response returns immediately without performing any
remote call at all — in particular no cluster or node state is written and no
FAILURE transition happens, even when the watch error is non-nil. -/
theorem callbacks_nil_response_noop :
    ∀ (envP : ProvisionCallbackEnv) (envI : InstallCallbackEnv) (r o c : String)
      (e1 e2 e3 e4 : Option Derror),
      provisionCallback envP r o c none e1 = [] ∧
      installCallback envI r o c none e2 = [] ∧
      scaleCallback r o c none e3 = [] ∧
      uninstallCallback r o c none e4 = [] := by
  intro envP envI r o c e1 e2 e3 e4
  exact ⟨rfl, rfl, rfl, rfl⟩

/- ===================== theorems: provision callback (C2, C8) ===================== -/

/-- The node-attachment sub-workflow performs only AddNode and AttachNode
calls; in particular it never issues an install request. -/
theorem attachNodes_no_install (env : AttachEnv) (rid oid cid : String)
    (nodes : List NodeInfo) (req : InstallRequest) :
    Action.installCluster req ∉ (attachNodes env rid oid cid nodes).2 := by
  induction nodes with
  | nil => simp [attachNodes]
  | cons n rest ih =>
    rcases ha : env.addNodeResult n.ip with e | nodeId
    · simp [attachNodes, ha]
    · rcases hb : env.attachNodeResult nodeId with _ | e
      · simp [attachNodes, ha, hb, ih]
      · simp [attachNodes, ha, hb]

/-- C2 counterexample: a provision-monitor completion with a successful final
response (no watch error, progress FINISHED) after which the cluster state is
written as PROVISIONED, yet no install request is ever issued — here because
the post-provision cluster discovery fails, a path on which provisionCallback
returns before reaching the install step. -/
theorem provisionCallback_success_without_install :
    provisionCallback
        ⟨none, Except.error (NewInternalError "cannot discover cluster"),
          ⟨fun _ => Except.ok "", fun _ => none⟩⟩
        "req-1" "org-1" "clu-1"
        (some { state := ProvisionProgress.FINISHED, rawKubeConfig := "kc",
                hostname := "h" })
        none =
      [Action.updateState "org-1" "clu-1" ClusterState.PROVISIONED] ∧
    (provisionCallback
        ⟨none, Except.error (NewInternalError "cannot discover cluster"),
          ⟨fun _ => Except.ok "", fun _ => none⟩⟩
        "req-1" "org-1" "clu-1"
        (some { state := ProvisionProgress.FINISHED, rawKubeConfig := "kc",
                hostname := "h" })
        none).any Action.isInstall = false := by
  exact ⟨rfl, rfl⟩

/-- C2 (amended): on a provision-monitor completion with a non-nil final
response, if the operation succeeded (no watch error and progress not ERROR)
and the callback's own registry state write and cluster discovery also
succeed, then the first write is the PROVISIONED transition and an install
request is issued automatically; if the operation failed, the callback's trace
is exactly the FAILURE transition — in particular no install request is ever
issued on the failure path. -/
theorem provisionCallback_transitions :
    (∀ (env : ProvisionCallbackEnv) (r o c : String)
      (resp : ProvisionClusterResponse) (d : EntCluster),
      env.updateStateResult = none → env.discoverResult = Except.ok d →
      resp.state ≠ ProvisionProgress.ERROR →
      (provisionCallback env r o c (some resp) none).head? =
        some (Action.updateState o c ClusterState.PROVISIONED) ∧
      (provisionCallback env r o c (some resp) none).any Action.isInstall = true) ∧
    (∀ (env : ProvisionCallbackEnv) (r o c : String)
      (resp : ProvisionClusterResponse) (err : Option Derror),
      err.isSome = true ∨ resp.state = ProvisionProgress.ERROR →
      provisionCallback env r o c (some resp) err =
        [Action.updateState o c ClusterState.FAILURE]) := by
  constructor
  · intro env r o c resp d hupd hdisc hstate
    simp [provisionCallback, hupd, hdisc, hstate, Action.isInstall]
  · intro env r o c resp err hfail
    rcases hfail with hf | hf
    · rcases Option.isSome_iff_exists.mp hf with ⟨e, rfl⟩
      simp [provisionCallback]
    · simp [provisionCallback, hf]

/-- C2 witness: the amended provision-callback behavior at a concrete
environment in which every chained step succeeds, and at a concrete failed
completion. -/
theorem provisionCallback_transitions_witness :
    ((provisionCallback
        ⟨none, Except.ok { controlPlaneHostname := "cp", nodes := [] },
          ⟨fun _ => Except.ok "node-1", fun _ => none⟩⟩
        "req-1" "org-1" "clu-1"
        (some { state := ProvisionProgress.FINISHED, rawKubeConfig := "kc",
                hostname := "h" })
        none).head? = some (Action.updateState "org-1" "clu-1" ClusterState.PROVISIONED) ∧
      (provisionCallback
        ⟨none, Except.ok { controlPlaneHostname := "cp", nodes := [] },
          ⟨fun _ => Except.ok "node-1", fun _ => none⟩⟩
        "req-1" "org-1" "clu-1"
        (some { state := ProvisionProgress.FINISHED, rawKubeConfig := "kc",
                hostname := "h" })
        none).any Action.isInstall = true) ∧
    provisionCallback
        ⟨none, Except.ok { controlPlaneHostname := "cp", nodes := [] },
          ⟨fun _ => Except.ok "node-1", fun _ => none⟩⟩
        "req-1" "org-1" "clu-1"
        (some { state := ProvisionProgress.ERROR }) none =
      [Action.updateState "org-1" "clu-1" ClusterState.FAILURE] :=
  ⟨provisionCallback_transitions.1
      ⟨none, Except.ok { controlPlaneHostname := "cp", nodes := [] },
        ⟨fun _ => Except.ok "node-1", fun _ => none⟩⟩
      "req-1" "org-1" "clu-1"
      { state := ProvisionProgress.FINISHED, rawKubeConfig := "kc", hostname := "h" }
      { controlPlaneHostname := "cp", nodes := [] } rfl rfl (by decide),
   provisionCallback_transitions.2
      ⟨none, Except.ok { controlPlaneHostname := "cp", nodes := [] },
        ⟨fun _ => Except.ok "node-1", fun _ => none⟩⟩
      "req-1" "org-1" "clu-1"
      { state := ProvisionProgress.ERROR } none (Or.inr rfl)⟩

/-- C8: every install request issued by the provision callback carries target
platform AZURE, unconditionally — the callback hardcodes the platform, and the
original provision request's platform is not even in its scope. -/
theorem provisionCallback_install_platform_azure :
    ∀ (env : ProvisionCallbackEnv) (r o c : String)
      (lastResponse : Option ProvisionClusterResponse) (err : Option Derror)
      (req : InstallRequest),
      Action.installCluster req ∈ provisionCallback env r o c lastResponse err →
      req.targetPlatform = Platform.AZURE := by
  intro env r o c lastResponse err req hmem
  cases lastResponse with
  | none => simp [provisionCallback] at hmem
  | some resp =>
    simp only [provisionCallback] at hmem
    repeat' split at hmem
    all_goals first
      | (simp [List.mem_append, attachNodes_no_install env.attach r o c] at hmem <;>
          rw [hmem])
      | simp_all

/-- C8 witness: a concrete successful provision completion on which an install
request is in fact issued, and its platform is AZURE. -/
theorem provisionCallback_install_platform_azure_witness :
    Action.installCluster
        { requestId := "req-1", organizationId := "org-1", clusterId := "clu-1",
          kubeConfigRaw := "kc", hostname := "h",
          targetPlatform := Platform.AZURE } ∈
      provisionCallback
        ⟨none, Except.ok { controlPlaneHostname := "cp", nodes := [] },
          ⟨fun _ => Except.ok "node-1", fun _ => none⟩⟩
        "req-1" "org-1" "clu-1"
        (some { state := ProvisionProgress.FINISHED, rawKubeConfig := "kc",
                hostname := "h" })
        none ∧
    ({ requestId := "req-1", organizationId := "org-1", clusterId := "clu-1",
       kubeConfigRaw := "kc", hostname := "h",
       targetPlatform := Platform.AZURE } : InstallRequest).targetPlatform =
      Platform.AZURE :=
  ⟨by decide,
   provisionCallback_install_platform_azure
     ⟨none, Except.ok { controlPlaneHostname := "cp", nodes := [] },
       ⟨fun _ => Except.ok "node-1", fun _ => none⟩⟩
     "req-1" "org-1" "clu-1"
     (some { state := ProvisionProgress.FINISHED, rawKubeConfig := "kc",
             hostname := "h" })
     none _ (by decide)⟩

/- ===================== theorems: uninstall completion (C4) ===================== -/

/-- C4 counterexample, refuting both conjuncts of the claim at concrete
inputs. First, on a successful uninstall completion the whole trace of the
registered uninstall callback is the single PROVISIONED state write — no
node-state update is ever performed by it (unlike the install callback, it has
no node-update loop), contrary to the claim that it updates each of the
cluster's nodes' states. Second, on a FAILED uninstall completion with a
decommission chain token supplied, the completed monitor's whole trace is the
single FAILURE state write — no decommission is triggered, contrary to the
claim that the second callback triggers decommissioning if and only if a token
was supplied. -/
theorem uninstallCallback_no_node_updates :
    uninstallCallback "req-1" "org-1" "clu-1"
        (some { requestId := "req-1", organizationId := "org-1",
                status := OpStatus.SUCCESS })
        none =
      [Action.updateState "org-1" "clu-1" ClusterState.PROVISIONED] ∧
    uninstallMonitorComplete
        (some ⟨{ organizationId := "org-1", clusterId := "clu-1" }⟩)
        "req-1" "org-1" "clu-1"
        (some { requestId := "req-1", organizationId := "org-1",
                status := OpStatus.FAILED })
        none =
      [Action.updateState "org-1" "clu-1" ClusterState.FAILURE] := by
  exact ⟨by decide, by decide⟩

/-- C4 (amended): on an uninstall-monitor completion with a non-nil final
response, the first registered callback sets the cluster's lifecycle state to
PROVISIONED on success or FAILURE on error but performs no node-state updates;
the decommission trigger fires exactly when the completion is successful and a
decommission chain token was supplied to Uninstall. -/
theorem uninstallMonitor_completion_behavior :
    ∀ (token : Option DecommissionCallback) (r o c : String)
      (resp : OpResponse) (err : Option Derror),
      (uninstallMonitorComplete token r o c (some resp) err).any
          Action.isNodeUpdate = false ∧
      (uninstallMonitorComplete token r o c (some resp) err).head? =
        some (Action.updateState o c
          (if err.isSome ∨ resp.status = OpStatus.FAILED then ClusterState.FAILURE
           else ClusterState.PROVISIONED)) ∧
      (uninstallMonitorComplete token r o c (some resp) err).any
          Action.isDecommission =
        (err.isNone && !(decide (resp.status = OpStatus.FAILED)) && token.isSome) := by
  intro token r o c resp err
  rcases token with _ | cb <;> rcases err with _ | e <;>
    by_cases hs : resp.status = OpStatus.FAILED <;>
      simp [uninstallMonitorComplete, uninstallCallback, hs,
        Action.isNodeUpdate, Action.isDecommission]

/- ===================== theorems: uninstall preconditions (C5) ===================== -/

/-- C5: Uninstall returns a failed-precondition error and performs no mutating
remote call when the target cluster's connectivity status is not ONLINE_CORDON
or at least one application service instance is deployed on it; when both
preconditions hold it is accepted — regardless of the cluster's lifecycle
state, which is never inspected — and the first mutating call is the
UNINSTALLING transition. -/
theorem uninstall_preconditions :
    ∀ (env : UninstallEnv) (request : UninstallClusterRequest)
      (token : Option DecommissionCallback) (cluster : Cluster)
      (instances : List AppInstance),
      env.getClusterResult = Except.ok cluster →
      env.listInstancesResult = Except.ok instances →
      ((cluster.clusterStatus ≠ ClusterStatus.ONLINE_CORDON ∨
          clusterHasApps instances request.organizationId request.clusterId = true) →
        (∃ e, (Uninstall env request token).1 = Except.error e ∧
          e.dtype = DerrorType.FailedPrecondition) ∧
        (Uninstall env request token).2 = []) ∧
      ((cluster.clusterStatus = ClusterStatus.ONLINE_CORDON ∧
          clusterHasApps instances request.organizationId request.clusterId = false) →
        canUninstallCluster env request.organizationId request.clusterId = none ∧
        (Uninstall env request token).2.head? =
          some (Action.updateState request.organizationId request.clusterId
            ClusterState.UNINSTALLING)) := by
  intro env request token cluster instances hget hlist
  constructor
  · intro hbad
    by_cases happs :
        clusterHasApps instances request.organizationId request.clusterId = true
    · have h1 : (Uninstall env request token).1 =
          Except.error
            (NewFailedPreconditionError "target cluster has deployed applications") := by
        simp [Uninstall, canUninstallCluster, hget, hlist, happs]
      exact ⟨⟨_, h1, rfl⟩,
        by simp [Uninstall, canUninstallCluster, hget, hlist, happs]⟩
    · have hstat : cluster.clusterStatus ≠ ClusterStatus.ONLINE_CORDON := by
        rcases hbad with h | h
        · exact h
        · exact absurd h happs
      have h1 : (Uninstall env request token).1 =
          Except.error
            (NewFailedPreconditionError "target cluster must be online and cordoned") := by
        simp [Uninstall, canUninstallCluster, hget, hlist, happs, hstat]
      exact ⟨⟨_, h1, rfl⟩,
        by simp [Uninstall, canUninstallCluster, hget, hlist, happs, hstat]⟩
  · rintro ⟨hstat, happs⟩
    have hcan : canUninstallCluster env request.organizationId request.clusterId
        = none := by
      simp [canUninstallCluster, hget, hlist, happs, hstat]
    refine ⟨hcan, ?_⟩
    simp only [Uninstall, hcan]
    rcases hu : env.updateStateResult with _ | e
    · rcases hr : env.uninstallRpcResult with e | respOk <;> simp [hu, hr]
    · simp [hu]

/-- C5 witness: a concrete online-but-not-cordoned cluster is rejected with a
failed-precondition error and an empty trace, and a concrete cordoned cluster
without deployed instances is accepted (here even with lifecycle state
FAILURE, showing the lifecycle state is not inspected). -/
theorem uninstall_preconditions_witness :
    ((∃ e, (Uninstall uninstallEnvOnline uninstallReq1 none).1 = Except.error e ∧
      e.dtype = DerrorType.FailedPrecondition) ∧
      (Uninstall uninstallEnvOnline uninstallReq1 none).2 = []) ∧
    (Uninstall uninstallEnvCordoned uninstallReq1 none).2.head? =
      some (Action.updateState "org-1" "clu-1" ClusterState.UNINSTALLING) :=
  ⟨(uninstall_preconditions uninstallEnvOnline uninstallReq1 none
      onlineCluster [] rfl rfl).1 (Or.inl (by decide)),
   by
    have h2 := (uninstall_preconditions uninstallEnvCordoned uninstallReq1 none
      cordonedFailedCluster [] rfl rfl).2 ⟨rfl, rfl⟩
    simpa [uninstallReq1] using h2.2⟩

end InfraManager
